import Mathlib

set_option maxHeartbeats 1000000

/-! Shallow embedding of the SuperPalmTree agent (src/agent.py, src/browser_tool.py,
src/main.py). Python strings are modeled as Lean strings over their character lists.
External effects are modeled as explicit oracle arguments: the Ollama HTTP endpoint
becomes a function from the dispatched prompt to an HTTP outcome, wall-clock readings
become a stream of timestamp strings, and Playwright page queries become pure page
data. Fallible Python code paths (try/except) are modeled with Option results folded
into the explicit fallback behaviour of the source. -/

/-- Python ASCII whitespace set used by str.strip (the unicode spaces Python also
strips never occur in the agent control strings; witnesses stay in ASCII). -/
def isPySpace (c : Char) : Bool :=
  c = ' ' || c = '\t' || c = '\n' || c = '\r' || c = Char.ofNat 11 || c = Char.ofNat 12

/-- Embedding of Python str.strip(). -/
def pyStrip (s : String) : String :=
  ⟨((s.data.dropWhile isPySpace).reverse.dropWhile isPySpace).reverse⟩

/-- Prefix test on character lists (embedding of Python str.startswith). -/
def isPre : List Char → List Char → Bool
  | [], _ => true
  | _ :: _, [] => false
  | a :: as, b :: bs => a == b && isPre as bs

/-- Substring scan on character lists (embedding of the Python `in` operator on str). -/
def containsAux (needle : List Char) : List Char → Bool
  | [] => needle.isEmpty
  | c :: t => isPre needle (c :: t) || containsAux needle t

/-- Embedding of Python `pat in s` for strings. -/
def strContains (s pat : String) : Bool := containsAux pat.data s.data

/-- Embedding of Python s.startswith(p). -/
def strStarts (s p : String) : Bool := isPre p.data s.data

/-- Embedding of Python str.split with a nonempty separator; fuel is the input
length plus one, and each step consumes at least one character. -/
def splitAux (sep : List Char) : Nat → List Char → List Char → List (List Char)
  | 0, hay, acc => [acc.reverse ++ hay]
  | fuel + 1, hay, acc =>
    if sep ≠ [] && isPre sep hay then
      acc.reverse :: splitAux sep fuel (hay.drop sep.length) []
    else
      match hay with
      | [] => [acc.reverse]
      | c :: t => splitAux sep fuel t (c :: acc)

/-- Embedding of Python s.split(sep) for a nonempty separator string. -/
def pySplit (s sep : String) : List String :=
  (splitAux sep.data (s.data.length + 1) s.data []).map (fun l => ⟨l⟩)

/-- Decimal digit characters of a natural number, most significant first; empty
for zero, fuel bounds the recursion (any fuel at least n works). -/
def natDecAux : Nat → Nat → List Char
  | 0, _ => []
  | fuel + 1, n => if n = 0 then [] else natDecAux fuel (n / 10) ++ [Char.ofNat (48 + n % 10)]

/-- Embedding of Python str(int) / f-string rendering of a nonnegative integer. -/
def natDec (n : Nat) : String := if n = 0 then "0" else ⟨natDecAux n n⟩

/-- The ASCII apostrophe, written via its code point. -/
def apos : String := String.singleton (Char.ofNat 39)

/-- JSON values as produced by Python json.loads. Numeric literals are kept as their
source lexeme (the agent never computes with them); Python None maps to Json.null;
objects keep dict insertion order with duplicate keys collapsed to the last value. -/
inductive Json where
  | null
  | bool (b : Bool)
  | num (lexeme : String)
  | str (s : String)
  | arr (items : List Json)
  | obj (members : List (String × Json))
deriving Repr

/-- Python dict insertion: an existing key keeps its position and takes the new
value, a new key is appended. -/
def insertKey : List (String × Json) → String → Json → List (String × Json)
  | [], k, v => [(k, v)]
  | (k0, v0) :: rest, k, v =>
    if k0 = k then (k0, v) :: rest else (k0, v0) :: insertKey rest k v

/-- First-match lookup in an object member list (keys are unique after parsing,
mirroring Python dict.get). -/
def jlookup : List (String × Json) → String → Option Json
  | [], _ => none
  | (k0, v0) :: rest, k => if k0 = k then some v0 else jlookup rest k

/-- JSON whitespace per RFC 8259, what Python json skips between tokens. -/
def jsonWs (c : Char) : Bool := c = ' ' || c = '\t' || c = '\n' || c = '\r'

def skipWs (s : List Char) : List Char := s.dropWhile jsonWs

def isHexDigit (c : Char) : Bool :=
  c.isDigit || ('a' ≤ c && c ≤ 'f') || ('A' ≤ c && c ≤ 'F')

def hexVal (c : Char) : Nat :=
  if c.isDigit then c.toNat - 48
  else if 'a' ≤ c && c ≤ 'f' then c.toNat - 87
  else c.toNat - 55

/-- Scan a JSON string body after the opening quote, strict mode as in Python json:
raw control characters are rejected, escapes are the eight standard ones plus a four
hex digit unicode escape with surrogate pairs combined. A lone surrogate, which
Python would keep in its str, has no Lean Char and degrades to NUL; the agent never
feeds such input. Fuel is the input length plus one. -/
def pStr : Nat → List Char → List Char → Option (List Char × List Char)
  | 0, _, _ => none
  | fuel + 1, acc, s =>
    match s with
    | [] => none
    | c :: t =>
      if c = '"' then some (acc.reverse, t)
      else if c = '\\' then
        match t with
        | [] => none
        | e :: t2 =>
          if e = '"' then pStr fuel ('"' :: acc) t2
          else if e = '\\' then pStr fuel ('\\' :: acc) t2
          else if e = '/' then pStr fuel ('/' :: acc) t2
          else if e = 'b' then pStr fuel (Char.ofNat 8 :: acc) t2
          else if e = 'f' then pStr fuel (Char.ofNat 12 :: acc) t2
          else if e = 'n' then pStr fuel ('\n' :: acc) t2
          else if e = 'r' then pStr fuel ('\r' :: acc) t2
          else if e = 't' then pStr fuel ('\t' :: acc) t2
          else if e = 'u' then
            match t2 with
            | h1 :: h2 :: h3 :: h4 :: t3 =>
              if isHexDigit h1 && isHexDigit h2 && isHexDigit h3 && isHexDigit h4 then
                let v := ((hexVal h1 * 16 + hexVal h2) * 16 + hexVal h3) * 16 + hexVal h4
                if 0xD800 ≤ v && v ≤ 0xDBFF then
                  match t3 with
                  | '\\' :: 'u' :: g1 :: g2 :: g3 :: g4 :: t4 =>
                    if isHexDigit g1 && isHexDigit g2 && isHexDigit g3 && isHexDigit g4 then
                      let w := ((hexVal g1 * 16 + hexVal g2) * 16 + hexVal g3) * 16 + hexVal g4
                      if 0xDC00 ≤ w && w ≤ 0xDFFF then
                        pStr fuel (Char.ofNat (0x10000 + (v - 0xD800) * 1024 + (w - 0xDC00)) :: acc) t4
                      else pStr fuel (Char.ofNat v :: acc) t3
                    else pStr fuel (Char.ofNat v :: acc) t3
                  | _ => pStr fuel (Char.ofNat v :: acc) t3
                else pStr fuel (Char.ofNat v :: acc) t3
              else none
            | _ => none
          else none
      else if c.toNat < 32 then none
      else pStr fuel (c :: acc) t

/-- Fraction and exponent tail of a JSON number, greedy as the Python scanner regex;
a malformed tail is simply not consumed. -/
def pNumFrac (intPart : List Char) (s : List Char) : Option (List Char × List Char) :=
  let fr := match s with
    | '.' :: t =>
      let ds := t.takeWhile Char.isDigit
      if ds.isEmpty then ([], s) else ('.' :: ds, t.dropWhile Char.isDigit)
    | _ => ([], s)
  let s2 := fr.2
  let ex := match s2 with
    | e :: t =>
      if e = 'e' || e = 'E' then
        match t with
        | sgn :: t2 =>
          if sgn = '+' || sgn = '-' then
            let ds := t2.takeWhile Char.isDigit
            if ds.isEmpty then ([], s2) else (e :: sgn :: ds, t2.dropWhile Char.isDigit)
          else
            let ds := t.takeWhile Char.isDigit
            if ds.isEmpty then ([], s2) else (e :: ds, t.dropWhile Char.isDigit)
        | [] => ([], s2)
      else ([], s2)
    | [] => ([], s2)
  some (intPart ++ fr.1 ++ ex.1, ex.2)

/-- Scan a JSON number at the head of the input, returning its lexeme; the integer
part is -?(0|[1-9][0-9]*) as in the Python scanner. -/
def pNum (s : List Char) : Option (List Char × List Char) :=
  let sg := match s with
    | '-' :: t => (['-'], t)
    | _ => (([] : List Char), s)
  match sg.2 with
  | [] => none
  | c :: t =>
    if c = '0' then pNumFrac (sg.1 ++ ['0']) t
    else if c.isDigit then
      pNumFrac (sg.1 ++ c :: t.takeWhile Char.isDigit) (t.dropWhile Char.isDigit)
    else none

mutual

/-- Parse one JSON value at the head of the already whitespace-skipped input.
Fuel bounds the mutual recursion depth; the caller passes more than enough. -/
def pValue : Nat → List Char → Option (Json × List Char)
  | 0, _ => none
  | fuel + 1, s =>
    match s with
    | [] => none
    | c :: t =>
      if c = '"' then (pStr (t.length + 1) [] t).map (fun r => (Json.str ⟨r.1⟩, r.2))
      else if c.toNat = 123 then pMembers fuel (skipWs t) [] true
      else if c = '[' then pItems fuel (skipWs t) [] true
      else if isPre "null".data s then some (Json.null, s.drop 4)
      else if isPre "true".data s then some (Json.bool true, s.drop 4)
      else if isPre "false".data s then some (Json.bool false, s.drop 5)
      else if isPre "NaN".data s then some (Json.num "NaN", s.drop 3)
      else if isPre "Infinity".data s then some (Json.num "Infinity", s.drop 8)
      else if isPre "-Infinity".data s then some (Json.num "-Infinity", s.drop 9)
      else (pNum s).map (fun r => (Json.num ⟨r.1⟩, r.2))

/-- Parse object members after the opening brace; first marks that no member has
been parsed yet (an immediate closing brace is only legal then, as in Python). -/
def pMembers : Nat → List Char → List (String × Json) → Bool → Option (Json × List Char)
  | 0, _, _, _ => none
  | fuel + 1, s, acc, first =>
    match s with
    | [] => none
    | c :: t =>
      if c.toNat = 125 && first then some (Json.obj acc, t)
      else if c = '"' then
        match pStr (t.length + 1) [] t with
        | none => none
        | some (key, rest) =>
          match skipWs rest with
          | ':' :: rest2 =>
            match pValue fuel (skipWs rest2) with
            | none => none
            | some (v, rest3) =>
              let acc2 := insertKey acc ⟨key⟩ v
              match skipWs rest3 with
              | c2 :: rest4 =>
                if c2 = ',' then pMembers fuel (skipWs rest4) acc2 false
                else if c2.toNat = 125 then some (Json.obj acc2, rest4)
                else none
              | [] => none
          | _ => none
      else none

/-- Parse array items after the opening bracket. -/
def pItems : Nat → List Char → List Json → Bool → Option (Json × List Char)
  | 0, _, _, _ => none
  | fuel + 1, s, acc, first =>
    match s with
    | [] => none
    | c :: _ =>
      if c = ']' && first then some (Json.arr acc.reverse, s.drop 1)
      else
        match pValue fuel s with
        | none => none
        | some (v, rest) =>
          match skipWs rest with
          | c2 :: rest2 =>
            if c2 = ',' then pItems fuel (skipWs rest2) (v :: acc) false
            else if c2 = ']' then some (Json.arr (v :: acc).reverse, rest2)
            else none
          | [] => none

end

/-- Embedding of Python json.loads: one value with surrounding whitespace and full
consumption required. The fuel dominates the recursion depth, which advances at
least one input character every three mutual calls. -/
def jsonParse (s : String) : Option Json :=
  match pValue (3 * s.data.length + 9) (skipWs s.data) with
  | some (v, rest) => if skipWs rest = [] then some v else none
  | none => none

/-- Lowercase hex digit character for a value below 16. -/
def hexDigit (n : Nat) : Char := if n < 10 then Char.ofNat (48 + n) else Char.ofNat (87 + n)

/-- Four lowercase hex digits, as in Python json \uXXXX escapes. -/
def hex4 (n : Nat) : String :=
  ⟨[hexDigit (n / 4096 % 16), hexDigit (n / 256 % 16), hexDigit (n / 16 % 16), hexDigit (n % 16)]⟩

/-- Escape one character the way Python json.dumps (ensure_ascii default) does. -/
def jsonEscapeChar (c : Char) : String :=
  if c = '"' then "\\\""
  else if c = '\\' then "\\\\"
  else if c = '\n' then "\\n"
  else if c = '\r' then "\\r"
  else if c = '\t' then "\\t"
  else if c.toNat = 8 then "\\b"
  else if c.toNat = 12 then "\\f"
  else if c.toNat < 32 then "\\u" ++ hex4 c.toNat
  else if c.toNat < 127 then String.singleton c
  else if c.toNat < 65536 then "\\u" ++ hex4 c.toNat
  else
    "\\u" ++ hex4 (55296 + (c.toNat - 65536) / 1024) ++ "\\u" ++ hex4 (56320 + (c.toNat - 65536) % 1024)

/-- Python json.dumps rendering of a string literal. -/
def jsonQuote (s : String) : String :=
  "\"" ++ String.join (s.data.map jsonEscapeChar) ++ "\""

mutual

/-- Embedding of Python json.dumps with its default separators; numeric values are
rendered as their stored lexeme (Python would re-render floats canonically, a
difference no agent code path observes). -/
def jsonDumps : Json → String
  | Json.null => "null"
  | Json.bool true => "true"
  | Json.bool false => "false"
  | Json.num lx => lx
  | Json.str s => jsonQuote s
  | Json.arr xs => "[" ++ jsonDumpsList xs ++ "]"
  | Json.obj kvs => "\x7b" ++ jsonDumpsObj kvs ++ "\x7d"

def jsonDumpsList : List Json → String
  | [] => ""
  | [x] => jsonDumps x
  | x :: y :: rest => jsonDumps x ++ ", " ++ jsonDumpsList (y :: rest)

def jsonDumpsObj : List (String × Json) → String
  | [] => ""
  | [(k, v)] => jsonQuote k ++ ": " ++ jsonDumps v
  | (k, v) :: m :: rest => jsonQuote k ++ ": " ++ jsonDumps v ++ ", " ++ jsonDumpsObj (m :: rest)

end

/-- Escape one character inside a Python repr literal with quote character q. -/
def pyReprChar (q : Char) (c : Char) : String :=
  if c = '\\' then "\\\\"
  else if c = q then "\\" ++ String.singleton q
  else if c = '\n' then "\\n"
  else if c = '\r' then "\\r"
  else if c = '\t' then "\\t"
  else if c.toNat < 32 || c.toNat = 127 then "\\x" ++ ⟨[hexDigit (c.toNat / 16), hexDigit (c.toNat % 16)]⟩
  else String.singleton c

/-- Python repr of a str: single quoted, unless the text holds an apostrophe and no
double quote. -/
def pyReprStr (s : String) : String :=
  let q : Char := if s.data.contains (Char.ofNat 39) && !(s.data.contains '"') then '"' else Char.ofNat 39
  String.singleton q ++ String.join (s.data.map (pyReprChar q)) ++ String.singleton q

mutual

/-- Embedding of Python repr on values decoded from JSON (used by f-string
interpolation of non-str fields). -/
def pyRepr : Json → String
  | Json.null => "None"
  | Json.bool true => "True"
  | Json.bool false => "False"
  | Json.num lx => lx
  | Json.str s => pyReprStr s
  | Json.arr xs => "[" ++ pyReprList xs ++ "]"
  | Json.obj kvs => "\x7b" ++ pyReprObj kvs ++ "\x7d"

def pyReprList : List Json → String
  | [] => ""
  | [x] => pyRepr x
  | x :: y :: rest => pyRepr x ++ ", " ++ pyReprList (y :: rest)

def pyReprObj : List (String × Json) → String
  | [] => ""
  | [(k, v)] => pyReprStr k ++ ": " ++ pyRepr v
  | (k, v) :: m :: rest => pyReprStr k ++ ": " ++ pyRepr v ++ ", " ++ pyReprObj (m :: rest)

end

/-- Embedding of Python str(x) as used by f-string interpolation: strings are
inserted verbatim, everything else via its repr. -/
def pyStr : Json → String
  | Json.str s => s
  | j => pyRepr j

/-- Embedding of the TaskStep dataclass of src/agent.py. Python leaves field values
untyped, so every field that can be filled from parsed JSON is a Json value, with
Python None represented by Json.null; the dataclass defaults are the Python ones. -/
structure TaskStep where
  step_num : Json
  tool : Json
  params : Json
  purpose : Json
  estimated_seconds : Json
  status : Json := Json.str "pending"
  result : Json := Json.null
  started_at : Json := Json.null
  completed_at : Json := Json.null
deriving Repr

/-- Embedding of the TaskPlan dataclass of src/agent.py; created_at is the
timestamp string supplied by the caller clock (datetime.now().isoformat()). -/
structure TaskPlan where
  task_summary : Json
  estimated_time : Json
  steps : List TaskStep
  fallback_plan : Json
  created_at : String
deriving Repr

/-- The nine TaskStep dataclass field names, the five required ones first. -/
def stepFields : List String :=
  ["step_num", "tool", "params", "purpose", "estimated_seconds",
   "status", "result", "started_at", "completed_at"]

def requiredStepFields : List String := stepFields.take 5

/-- TaskStep(**step_data): succeeds exactly when step_data is a JSON object whose
keys include the five required dataclass fields and nothing outside the nine
dataclass fields (any other call raises TypeError, caught by the fallback path). -/
def buildStep : Json → Option TaskStep
  | Json.obj kvs =>
    if requiredStepFields.all (fun k => (jlookup kvs k).isSome)
        && kvs.all (fun kv => stepFields.contains kv.1) then
      some
        { step_num := (jlookup kvs "step_num").getD Json.null
          tool := (jlookup kvs "tool").getD Json.null
          params := (jlookup kvs "params").getD Json.null
          purpose := (jlookup kvs "purpose").getD Json.null
          estimated_seconds := (jlookup kvs "estimated_seconds").getD Json.null
          status := (jlookup kvs "status").getD (Json.str "pending")
          result := (jlookup kvs "result").getD Json.null
          started_at := (jlookup kvs "started_at").getD Json.null
          completed_at := (jlookup kvs "completed_at").getD Json.null }
    else none
  | _ => none

/-- The step list comprehension of create_plan: the first TaskStep construction
that raises aborts the whole try block. -/
def buildSteps : List Json → Option (List TaskStep)
  | [] => some []
  | x :: xs =>
    match buildStep x, buildSteps xs with
    | some s, some rest => some (s :: rest)
    | _, _ => none

/-- The markdown fence extraction of create_plan: the text between the first
"```json" fence (or else the first "```" fence) and the next "```", or the raw
response when no fence occurs. Matching on the split result encodes the Python
substring guard (the split has a second part exactly when the fence occurs). -/
def extractJson (response : String) : String :=
  match pySplit response "```json" with
  | _ :: after :: _ => (pySplit after "```").headD ""
  | _ =>
    match pySplit response "```" with
    | _ :: after :: _ => (pySplit after "```").headD ""
    | _ => response

/-- The parsing half of create_plan: strip and json.loads the extracted text, read
the plan fields off the decoded dict with their .get defaults, and build the step
list; any Python exception on this path (invalid JSON, non-dict result, non-list
steps, bad step dict) yields none, which create_plan turns into the fallback plan. -/
def planParse (response : String) : Option (Json × Json × List TaskStep × Json) :=
  match jsonParse (pyStrip (extractJson response)) with
  | some (Json.obj kvs) =>
    match (jlookup kvs "steps").getD (Json.arr []) with
    | Json.arr xs =>
      match buildSteps xs with
      | some steps =>
        some ((jlookup kvs "task_summary").getD (Json.str "Unknown task"),
              (jlookup kvs "estimated_time").getD (Json.str "Unknown"),
              steps,
              (jlookup kvs "fallback_plan").getD (Json.str "Ask user for help"))
      | none => none
    | _ => none
  | _ => none

/-- The hard-coded fallback plan of create_plan. -/
def fallback_plan (now user_request : String) : TaskPlan :=
  { task_summary := Json.str user_request
    estimated_time := Json.str "5 minutes"
    steps :=
      [{ step_num := Json.num "1"
         tool := Json.str "shell_command"
         params := Json.obj [("cmd", Json.str ("echo " ++ apos ++ "Processing: " ++ user_request ++ apos))]
         purpose := Json.str "Process request"
         estimated_seconds := Json.num "5" }]
    fallback_plan := Json.str "Execute directly"
    created_at := now }

/-- create_plan after the model response is in hand: parse it into a TaskPlan, or
fall back to the single echo step on any parse failure. -/
def create_plan_of_response (now user_request response : String) : TaskPlan :=
  match planParse response with
  | some (ts, et, steps, fb) =>
    { task_summary := ts, estimated_time := et, steps := steps, fallback_plan := fb,
      created_at := now }
  | none => fallback_plan now user_request

/-- Outcome of the blocking HTTP POST in SuperPalmTree.chat, as seen by the caller:
either the requests call (or the body decode) raised, or a response with a status
code arrived whose decoded body carries an optional "response" text field. -/
inductive HttpOutcome where
  | exn (msg : String)
  | resp (status : Nat) (responseField : Option String)
deriving Repr

/-- The prompt actually dispatched by chat: the optional system preamble, a blank
line, then the prompt. -/
def fullPrompt : Option String → String → String
  | some s, p => s ++ "\n\n" ++ p
  | none, p => p

/-- The result handling of chat: the "response" field (default empty) on HTTP 200,
an Error string embedding the status otherwise, an Error string embedding the
exception message when the call raised. -/
def chatHandle : HttpOutcome → String
  | HttpOutcome.resp status f => if status = 200 then f.getD "" else "Error: HTTP " ++ natDec status
  | HttpOutcome.exn m => "Error: " ++ m

/-- Embedding of SuperPalmTree.chat. The network is an oracle from the dispatched
full prompt to the HTTP outcome (the fixed payload fields, model name, context size
and temperature, do not vary within a session and are absorbed into the oracle). -/
def chat (net : String → HttpOutcome) (prompt : String) (system : Option String) : String :=
  chatHandle (net (fullPrompt system prompt))

/-- PLANNER_SYSTEM_PROMPT of src/agent.py. -/
def PLANNER_SYSTEM_PROMPT : String :=
  "You are SuperPalmTree Planner - an expert AI task planner.\n\nYour job: Analyze user requests and create detailed step-by-step execution plans.\n\nRULES:\n1. ALWAYS break complex tasks into small, executable steps\n2. Each step must use ONE tool: browser, shell, or file\n3. For browser tasks: specify exact URLs and actions\n4. For shell tasks: use only safe commands (ls, cat, grep, wc, head, tail)\n5. For file tasks: specify exact paths in ~/superpalmtree-exp/\n6. If login might be needed, include \"CHECK_LOGIN\" step\n7. Estimate time for each step\n\nAVAILABLE TOOLS:\n- browser_navigate(url): Open URL in headless browser\n- browser_click(selector): Click element by CSS selector\n- browser_type(selector, text): Type text into input\n- browser_get_text(): Extract page text\n- browser_screenshot(): Save screenshot\n- shell_command(cmd): Run safe shell command\n- file_read(path): Read file contents\n- file_write(path, content): Write to file\n- file_append(path, content): Append to file\n\nOUTPUT FORMAT - JSON:\n\x7b\n    \"task_summary\": \"Brief description\",\n    \"estimated_time\": \"X minutes\",\n    \"steps\": [\n        \x7b\n            \"step_num\": 1,\n            \"tool\": \"browser_navigate\",\n            \"params\": \x7b\"url\": \"https://example.com\"\x7d,\n            \"purpose\": \"Navigate to website\",\n            \"estimated_seconds\": 5\n        \x7d\n    ],\n    \"fallback_plan\": \"What to do if main plan fails\"\x7d"

/-- EXECUTOR_SYSTEM_PROMPT of src/agent.py. -/
def EXECUTOR_SYSTEM_PROMPT : String :=
  "You are SuperPalmTree Executor - an expert at executing tasks using tools.\n\nYour job: Execute one step at a time and report results.\n\nRULES:\n1. Execute ONLY the current step\n2. Use tools exactly as specified\n3. Report success/failure clearly\n4. If tool fails, explain why and suggest fix\n5. Never execute multiple steps at once\n6. Be precise with selectors and paths\n\nRESPONSE FORMAT:\n- Status: SUCCESS / FAILED / NEEDS_INPUT\n- Result: What happened\n- Data: Any extracted data (JSON)\n- Next: What should happen next"

/-- Embedding of SuperPalmTree.create_plan: dispatch the planning prompt through
chat and parse the response (or fall back). -/
def create_plan (net : String → HttpOutcome) (now user_request : String) : TaskPlan :=
  create_plan_of_response now user_request
    (chat net ("User Request: " ++ user_request ++ "\n\nCreate a detailed execution plan. Respond with valid JSON only.")
      (some PLANNER_SYSTEM_PROMPT))

/-- The free-text prompt execute_step sends for one step. -/
def stepPrompt (step : TaskStep) : String :=
  "Execute this step:\nTool: " ++ pyStr step.tool ++ "\nParameters: " ++ jsonDumps step.params
    ++ "\nPurpose: " ++ pyStr step.purpose ++ "\n\nExecute and report results."

/-- Python `status == "completed"` where status is the untyped dataclass field. -/
def jeqStr : Json → String → Bool
  | Json.str t, u => t = u
  | _, _ => false

/-- Embedding of SuperPalmTree.execute_step: mark the start time, ask the executor
model to describe execution, store the response, derive the status by scanning the
response for the literal substring SUCCESS, mark the end time, and report whether
the status is completed. t1 and t2 are the two wall-clock readings. -/
def execute_step (net : String → HttpOutcome) (t1 t2 : String) (step : TaskStep) :
    TaskStep × Bool :=
  let response := chat net (stepPrompt step) (some EXECUTOR_SYSTEM_PROMPT)
  let newStatus := if strContains response "SUCCESS" then "completed" else "failed"
  let step2 := { step with
    started_at := Json.str t1
    result := Json.str response
    status := Json.str newStatus
    completed_at := Json.str t2 }
  (step2, jeqStr step2.status "completed")

/-- The execution loop of execute_plan over the remaining steps; i counts the steps
already processed, and the clock stream supplies the two timestamps of step i at
positions 2i and 2i+1. Returns the mutated steps and the success count. -/
def execSteps (net : String → HttpOutcome) (clock : Nat → String) :
    Nat → List TaskStep → List TaskStep × Nat
  | _, [] => ([], 0)
  | i, s :: rest =>
    let r := execute_step net (clock (2 * i)) (clock (2 * i + 1)) s
    let tail := execSteps net clock (i + 1) rest
    (r.1 :: tail.1, (if r.2 then 1 else 0) + tail.2)

/-- Embedding of SuperPalmTree.execute_plan: run every step in list order (a failed
step only prints a warning), count successes, and succeed exactly when the success
count equals the number of steps. Returns the executed steps, the reported success
count, and the boolean result. -/
def execute_plan (net : String → HttpOutcome) (clock : Nat → String) (plan : TaskPlan) :
    List TaskStep × Nat × Bool :=
  let r := execSteps net clock 0 plan.steps
  (r.1, r.2, decide (r.2 = plan.steps.length))

/-- Embedding of SuperPalmTree.run_task: plan, then execute. -/
def run_task (net : String → HttpOutcome) (clock : Nat → String) (now user_request : String) :
    List TaskStep × Nat × Bool :=
  execute_plan net clock (create_plan net now user_request)

/-- The hardware report of detect_hardware. RAM readings are modeled as exact
rationals (psutil reports bytes divided by 2 to the 30th; the only use is the
threshold comparison below). -/
structure HardwareInfo where
  ram_gb : ℚ
  model : String
  context_size : Nat
deriving Repr, DecidableEq

/-- Embedding of SuperPalmTree.detect_hardware (src/agent.py): the four-tier lookup
table from RAM to model and context size. -/
def detect_hardware (ram_gb : ℚ) : HardwareInfo :=
  if 16 ≤ ram_gb then { ram_gb := ram_gb, model := "qwen3:8b", context_size := 32768 }
  else if 8 ≤ ram_gb then { ram_gb := ram_gb, model := "qwen3:4b", context_size := 16384 }
  else if 4 ≤ ram_gb then { ram_gb := ram_gb, model := "qwen3:1.7b", context_size := 8192 }
  else { ram_gb := ram_gb, model := "qwen3:0.6b", context_size := 4096 }

/-- Round half to even, the Python round() tie rule, modeled exactly on rationals. -/
def roundHalfEven (q : ℚ) : ℤ :=
  let f := ⌊q⌋
  if q - f < 1 / 2 then f
  else if 1 / 2 < q - f then f + 1
  else if f % 2 = 0 then f else f + 1

/-- Embedding of Python round(x, 1) on the rational RAM model. -/
def pyRound1 (q : ℚ) : ℚ := (roundHalfEven (q * 10) : ℚ) / 10

/-- Embedding of detect_hardware of src/main.py: the three-tier variant, which also
rounds the reported RAM to one decimal. -/
def detect_hardware_main (ram_gb : ℚ) : HardwareInfo :=
  if 16 ≤ ram_gb then { ram_gb := pyRound1 ram_gb, model := "qwen3:8b", context_size := 32768 }
  else if 8 ≤ ram_gb then { ram_gb := pyRound1 ram_gb, model := "qwen3:4b", context_size := 16384 }
  else { ram_gb := pyRound1 ram_gb, model := "qwen3:1.7b", context_size := 8192 }

/-- Embedding of the ElementRef dataclass of src/browser_tool.py. The Playwright
locator object attached dynamically by snapshot is an external handle that no code
in the repository reads back and is not modeled. -/
structure ElementRef where
  ref : String
  role : String
  name : String
  selector : String
deriving Repr, DecidableEq

/-- The CDPBrowser state the modeled operations touch: the ref table in insertion
order (a Python dict keyed by fresh refs), the ref counter, the current url, and
whether self.page is set. -/
structure BrowserState where
  element_refs : List (String × ElementRef) := []
  ref_counter : Nat := 0
  current_url : String := ""
  page_started : Bool := false
deriving Repr, DecidableEq

/-- Embedding of CDPBrowser._add_ref: bump the counter, mint the ref string, record
the entry (selector left empty as in the source), and return the ref. -/
def add_ref (st : BrowserState) (role name : String) : String × BrowserState :=
  let c := st.ref_counter + 1
  let ref := "e" ++ natDec c
  (ref,
   { st with
     ref_counter := c
     element_refs := st.element_refs ++ [(ref, { ref := ref, role := role, name := name, selector := "" })] })

/-- Pure page data standing in for the Playwright role queries of snapshot: the
text_content of each heading, link and button (None possible), and the placeholder
attribute of each textbox. -/
structure PageModel where
  headings : List (Option String)
  links : List (Option String)
  buttons : List (Option String)
  textboxes : List (Option String)

/-- The heading loop of snapshot: a truthy text appends a heading line; no refs. -/
def snapHeadings : List (Option String) → List String → List String
  | [], lines => lines
  | none :: rest, lines => snapHeadings rest lines
  | some txt :: rest, lines =>
    if txt = "" then snapHeadings rest lines
    else snapHeadings rest (lines ++ ["# " ++ pyStrip txt])

/-- The link loop of snapshot: a text that is truthy and nonempty after stripping
gets a fresh ref and a listing line. -/
def snapLinks : List (Option String) → List String → BrowserState → List String × BrowserState
  | [], lines, st => (lines, st)
  | none :: rest, lines, st => snapLinks rest lines st
  | some txt :: rest, lines, st =>
    if txt = "" || pyStrip txt = "" then snapLinks rest lines st
    else
      let r := add_ref st "link" (pyStrip txt)
      snapLinks rest (lines ++ ["- link \"" ++ pyStrip txt ++ "\" [ref=" ++ r.1 ++ "]"]) r.2

/-- The button loop of snapshot, same shape as the link loop. -/
def snapButtons : List (Option String) → List String → BrowserState → List String × BrowserState
  | [], lines, st => (lines, st)
  | none :: rest, lines, st => snapButtons rest lines st
  | some txt :: rest, lines, st =>
    if txt = "" || pyStrip txt = "" then snapButtons rest lines st
    else
      let r := add_ref st "button" (pyStrip txt)
      snapButtons rest (lines ++ ["- button \"" ++ pyStrip txt ++ "\" [ref=" ++ r.1 ++ "]"]) r.2

/-- The textbox loop of snapshot: every textbox gets a ref, named by its
placeholder or the word input when the placeholder is falsy (None or empty). -/
def snapInputs : List (Option String) → List String → BrowserState → List String × BrowserState
  | [], lines, st => (lines, st)
  | none :: rest, lines, st =>
    let r := add_ref st "textbox" "input"
    snapInputs rest (lines ++ ["- input \"input\" [ref=" ++ r.1 ++ "]"]) r.2
  | some s :: rest, lines, st =>
    let ph := if s = "" then "input" else s
    let r := add_ref st "textbox" ph
    snapInputs rest (lines ++ ["- input \"" ++ ph ++ "\" [ref=" ++ r.1 ++ "]"]) r.2

/-- Embedding of CDPBrowser.snapshot: bail out if the browser is not started,
otherwise clear the ref table, reset the counter, and list headings, links,
buttons and textboxes, minting refs as it goes. Returns the text and the new
state. -/
def snapshot (st : BrowserState) (page : PageModel) : String × BrowserState :=
  if !st.page_started then ("[error] Browser not started", st)
  else
    let st0 := { st with element_refs := [], ref_counter := 0 }
    let lines0 := ["[page] " ++ st.current_url, ""]
    let lines1 := snapHeadings page.headings lines0
    let r2 := snapLinks page.links lines1 st0
    let r3 := snapButtons page.buttons r2.1 r2.2
    let r4 := snapInputs page.textboxes r3.1 r3.2
    (String.intercalate "\n" r4.1, r4.2)

/-- The scheme normalization of CDPBrowser.navigate. -/
def normalize_url (url : String) : String :=
  if strStarts url "http://" || strStarts url "https://" then url else "https://" ++ url

/-- Outcome of the page.goto call as the caller sees it: either it raised, or the
page loaded with a resolved url and an optional response carrying ok and status. -/
inductive GotoOutcome where
  | thrown (msg : String)
  | loaded (resolvedUrl : String) (response : Option (Bool × Nat))
deriving Repr

/-- Result of the modeled navigate: the returned pair, the url actually dispatched
to page.goto (none when the browser was not started), and the state after. -/
structure NavResult where
  ok : Bool
  msg : String
  dispatched : Option String
  st : BrowserState
deriving Repr

/-- Embedding of CDPBrowser.navigate: fail if not started, normalize the scheme,
dispatch the load (the goto oracle takes the dispatched url and the wait
condition), record the resolved url, and phrase the message by response status;
a raise becomes a (False, message) result. -/
def navigate (st : BrowserState) (goto : String → String → GotoOutcome)
    (url : String) (wait_for : String := "domcontentloaded") : NavResult :=
  if !st.page_started then
    { ok := false, msg := "Browser not started", dispatched := none, st := st }
  else
    let u := normalize_url url
    match goto u wait_for with
    | GotoOutcome.thrown e =>
      { ok := false, msg := "Navigation failed: " ++ e, dispatched := some u, st := st }
    | GotoOutcome.loaded resolved resp =>
      let st2 := { st with current_url := resolved }
      match resp with
      | some (true, _) =>
        { ok := true, msg := "Navigated to " ++ resolved, dispatched := some u, st := st2 }
      | some (false, status) =>
        { ok := true, msg := "Navigated to " ++ resolved ++ " (status: " ++ natDec status ++ ")",
          dispatched := some u, st := st2 }
      | none =>
        { ok := true, msg := "Navigated to " ++ resolved, dispatched := some u, st := st2 }

/-- The ref shape test of click and type_text: startswith e and a nonempty all
digit tail (Python isdigit on the ASCII arguments the agent produces). -/
def isRefShaped (s : String) : Bool :=
  strStarts s "e" && !(s.data.drop 1).isEmpty && (s.data.drop 1).all Char.isDigit

/-- First-match lookup in the ref table (element_refs.get). -/
def lookupRef : List (String × ElementRef) → String → Option ElementRef
  | [], _ => none
  | (k, v) :: rest, key => if k = key then some v else lookupRef rest key

/-- Embedding of CDPBrowser.click: a ref-shaped argument is resolved through the
ref table and fails outright when unknown; anything else is used as a literal CSS
selector. The doClick oracle reports whether page.click succeeded (an exception
becomes False). Returns the boolean result and the selector attempted, if any. -/
def click (st : BrowserState) (doClick : String → Bool) (arg : String) : Bool × Option String :=
  if !st.page_started then (false, none)
  else if isRefShaped arg then
    match lookupRef st.element_refs arg with
    | some info => (doClick info.selector, some info.selector)
    | none => (false, none)
  else (doClick arg, some arg)

/-- Embedding of CDPBrowser.type_text, same resolution as click with page.fill. -/
def type_text (st : BrowserState) (doFill : String → String → Bool)
    (arg : String) (text : String) : Bool × Option String :=
  if !st.page_started then (false, none)
  else if isRefShaped arg then
    match lookupRef st.element_refs arg with
    | some info => (doFill info.selector text, some info.selector)
    | none => (false, none)
  else (doFill arg text, some arg)

/-- Modelled from the spec: the login-wall detection that section 4.5 attributes to
navigate is absent from the provided src/browser_tool.py; per the spec heuristic, a
loaded page is a login wall when its text contains "login", "sign in" or
"password" and a password-type input exists, and the check then reports the
distinguished LOGIN_REQUIRED outcome instead of the generic success outcome OK. -/
def check_login (pageText : String) (hasPasswordInput : Bool) : String :=
  if (strContains pageText "login" || strContains pageText "sign in"
      || strContains pageText "password") && hasPasswordInput then
    "LOGIN_REQUIRED"
  else "OK"

/-! Helper lemmas about the embedding. -/

theorem str_data_inj (a b : String) (h : a.data = b.data) : a = b := by
  cases a; cases b; exact congrArg String.mk h

theorem str_data_append (a b : String) : (a ++ b).data = a.data ++ b.data := by
  cases a; cases b; rfl

/-- Decode of a most-significant-first digit character list. -/
def digitsToNat : List Char → Nat := List.foldl (fun a c => 10 * a + (c.toNat - 48)) 0

theorem char_toNat_ofNat_digit (d : Nat) (h : d < 10) : (Char.ofNat (48 + d)).toNat = 48 + d := by
  interval_cases d <;> rfl

theorem digitsToNat_append_digit (l : List Char) (c : Char) :
    digitsToNat (l ++ [c]) = 10 * digitsToNat l + (c.toNat - 48) := by
  simp [digitsToNat, List.foldl_append]

theorem natDecAux_decode : ∀ fuel n, n ≤ fuel → digitsToNat (natDecAux fuel n) = n := by
  intro fuel
  induction fuel with
  | zero =>
    intro n h
    have h0 : n = 0 := Nat.le_zero.mp h
    subst h0; rfl
  | succ f ih =>
    intro n h
    by_cases h0 : n = 0
    · subst h0; rfl
    · have hdiv : n / 10 < n := Nat.div_lt_self (Nat.pos_of_ne_zero h0) (by norm_num)
      have hle : n / 10 ≤ f := by omega
      rw [natDecAux, if_neg h0, digitsToNat_append_digit, ih (n / 10) hle,
        char_toNat_ofNat_digit (n % 10) (Nat.mod_lt _ (by norm_num))]
      omega

theorem natDec_inj (m n : Nat) (hm : 0 < m) (hn : 0 < n) (h : natDec m = natDec n) : m = n := by
  have hm0 : m ≠ 0 := Nat.pos_iff_ne_zero.mp hm
  have hn0 : n ≠ 0 := Nat.pos_iff_ne_zero.mp hn
  rw [natDec, natDec, if_neg hm0, if_neg hn0] at h
  have hdata : natDecAux m m = natDecAux n n := congrArg String.data h
  have := congrArg digitsToNat hdata
  rwa [natDecAux_decode m m (Nat.le_refl m), natDecAux_decode n n (Nat.le_refl n)] at this

/-- The ref string minted for counter value k. -/
def eRef (k : Nat) : String := "e" ++ natDec k

theorem eRef_inj (m n : Nat) (hm : 0 < m) (hn : 0 < n) (h : eRef m = eRef n) : m = n := by
  apply natDec_inj m n hm hn
  apply str_data_inj
  have := congrArg String.data h
  rw [eRef, eRef, str_data_append, str_data_append] at this
  simpa using this

theorem isPre_iff (p l : List Char) : isPre p l = true ↔ ∃ r, l = p ++ r := by
  induction p generalizing l with
  | nil => simp only [isPre, true_iff]; exact ⟨l, rfl⟩
  | cons a as ih =>
    cases l with
    | nil => simp [isPre]
    | cons b bs =>
      rw [isPre, Bool.and_eq_true, beq_iff_eq, ih]
      constructor
      · rintro ⟨hab, r, hr⟩
        exact ⟨r, by simp [hab, hr]⟩
      · rintro ⟨r, hr⟩
        injection hr with h1 h2
        exact ⟨h1.symm, r, h2⟩

theorem containsAux_iff (p l : List Char) :
    containsAux p l = true ↔ ∃ pre suf, l = pre ++ p ++ suf := by
  induction l with
  | nil =>
    simp only [containsAux, List.isEmpty_iff]
    constructor
    · intro h; exact ⟨[], [], by simp [h]⟩
    · rintro ⟨pre, suf, h⟩
      rcases List.append_eq_nil.mp (List.append_eq_nil.mp h.symm).1 with ⟨-, h2⟩
      exact h2
  | cons c t ih =>
    rw [containsAux, Bool.or_eq_true, ih, isPre_iff]
    constructor
    · rintro (⟨r, hr⟩ | ⟨pre, suf, hs⟩)
      · exact ⟨[], r, by simpa using hr⟩
      · exact ⟨c :: pre, suf, by simp [hs]⟩
    · rintro ⟨pre, suf, hs⟩
      cases pre with
      | nil => exact Or.inl ⟨suf, by simpa using hs⟩
      | cons x xs =>
        injection hs with h1 h2
        exact Or.inr ⟨xs, suf, h2⟩

/-- The Python substring operator agrees with substring existence. -/
theorem strContains_iff (s pat : String) :
    strContains s pat = true ↔ ∃ pre suf, s.data = pre ++ pat.data ++ suf :=
  containsAux_iff pat.data s.data

theorem strStarts_of_append (a b p : String) (h : strStarts a p = true) :
    strStarts (a ++ b) p = true := by
  rw [strStarts, isPre_iff] at h ⊢
  rcases h with ⟨r, hr⟩
  exact ⟨r ++ b.data, by rw [str_data_append, hr, List.append_assoc]⟩

theorem add_ref_counter (st : BrowserState) (role name : String) :
    (add_ref st role name).2.ref_counter = st.ref_counter + 1 := rfl

theorem add_ref_refs (st : BrowserState) (role name : String) :
    (add_ref st role name).2.element_refs.map Prod.fst
      = st.element_refs.map Prod.fst ++ [eRef (st.ref_counter + 1)] := by
  simp [add_ref, eRef]

theorem snapLinks_refs (items : List (Option String)) :
    ∀ (lines : List String) (st : BrowserState),
      ∃ k,
        (snapLinks items lines st).2.ref_counter = st.ref_counter + k ∧
        (snapLinks items lines st).2.element_refs.map Prod.fst
          = st.element_refs.map Prod.fst ++ (List.range' (st.ref_counter + 1) k).map eRef := by
  induction items with
  | nil => intro lines st; exact ⟨0, rfl, by simp [snapLinks]⟩
  | cons hd rest ih =>
    intro lines st
    match hd with
    | none => simpa only [snapLinks] using ih lines st
    | some txt =>
      rw [snapLinks]
      split
      · exact ih lines st
      · obtain ⟨k, hk1, hk2⟩ := ih
          (lines ++ ["- link \"" ++ pyStrip txt ++ "\" [ref=" ++ (add_ref st "link" (pyStrip txt)).1 ++ "]"])
          (add_ref st "link" (pyStrip txt)).2
        refine ⟨k + 1, ?_, ?_⟩
        · rw [hk1, add_ref_counter]; omega
        · rw [hk2, add_ref_refs, add_ref_counter, List.range'_succ]
          simp [List.append_assoc]

theorem snapButtons_refs (items : List (Option String)) :
    ∀ (lines : List String) (st : BrowserState),
      ∃ k,
        (snapButtons items lines st).2.ref_counter = st.ref_counter + k ∧
        (snapButtons items lines st).2.element_refs.map Prod.fst
          = st.element_refs.map Prod.fst ++ (List.range' (st.ref_counter + 1) k).map eRef := by
  induction items with
  | nil => intro lines st; exact ⟨0, rfl, by simp [snapButtons]⟩
  | cons hd rest ih =>
    intro lines st
    match hd with
    | none => simpa only [snapButtons] using ih lines st
    | some txt =>
      rw [snapButtons]
      split
      · exact ih lines st
      · obtain ⟨k, hk1, hk2⟩ := ih
          (lines ++ ["- button \"" ++ pyStrip txt ++ "\" [ref=" ++ (add_ref st "button" (pyStrip txt)).1 ++ "]"])
          (add_ref st "button" (pyStrip txt)).2
        refine ⟨k + 1, ?_, ?_⟩
        · rw [hk1, add_ref_counter]; omega
        · rw [hk2, add_ref_refs, add_ref_counter, List.range'_succ]
          simp [List.append_assoc]

theorem snapInputs_refs (items : List (Option String)) :
    ∀ (lines : List String) (st : BrowserState),
      ∃ k,
        (snapInputs items lines st).2.ref_counter = st.ref_counter + k ∧
        (snapInputs items lines st).2.element_refs.map Prod.fst
          = st.element_refs.map Prod.fst ++ (List.range' (st.ref_counter + 1) k).map eRef := by
  induction items with
  | nil => intro lines st; exact ⟨0, rfl, by simp [snapInputs]⟩
  | cons hd rest ih =>
    intro lines st
    match hd with
    | none =>
      rw [snapInputs]
      obtain ⟨k, hk1, hk2⟩ := ih
        (lines ++ ["- input \"input\" [ref=" ++ (add_ref st "textbox" "input").1 ++ "]"])
        (add_ref st "textbox" "input").2
      refine ⟨k + 1, ?_, ?_⟩
      · rw [hk1, add_ref_counter]; omega
      · rw [hk2, add_ref_refs, add_ref_counter, List.range'_succ]
        simp [List.append_assoc]
    | some s =>
      rw [snapInputs]
      obtain ⟨k, hk1, hk2⟩ := ih
        (lines ++ ["- input \"" ++ (if s = "" then "input" else s) ++ "\" [ref="
          ++ (add_ref st "textbox" (if s = "" then "input" else s)).1 ++ "]"])
        (add_ref st "textbox" (if s = "" then "input" else s)).2
      refine ⟨k + 1, ?_, ?_⟩
      · rw [hk1, add_ref_counter]; omega
      · rw [hk2, add_ref_refs, add_ref_counter, List.range'_succ]
        simp [List.append_assoc]

theorem snap_chain (links buttons textboxes : List (Option String)) (lines : List String)
    (st0 : BrowserState) (h1 : st0.element_refs = []) (h2 : st0.ref_counter = 0) :
    (snapInputs textboxes
        (snapButtons buttons (snapLinks links lines st0).1 (snapLinks links lines st0).2).1
        (snapButtons buttons (snapLinks links lines st0).1 (snapLinks links lines st0).2).2).2.element_refs.map Prod.fst
      = (List.range' 1
          (snapInputs textboxes
            (snapButtons buttons (snapLinks links lines st0).1 (snapLinks links lines st0).2).1
            (snapButtons buttons (snapLinks links lines st0).1 (snapLinks links lines st0).2).2).2.ref_counter).map eRef := by
  obtain ⟨a, ha1, ha2⟩ := snapLinks_refs links lines st0
  obtain ⟨b, hb1, hb2⟩ := snapButtons_refs buttons (snapLinks links lines st0).1 (snapLinks links lines st0).2
  obtain ⟨c, hc1, hc2⟩ := snapInputs_refs textboxes
    (snapButtons buttons (snapLinks links lines st0).1 (snapLinks links lines st0).2).1
    (snapButtons buttons (snapLinks links lines st0).1 (snapLinks links lines st0).2).2
  rw [h2] at ha1
  rw [h1, h2] at ha2
  rw [hc2, hb2, ha2, hc1, hb1, ha1]
  simp only [List.map_nil, List.nil_append, Nat.zero_add]
  rw [show a + 1 = 1 + a by omega, ← List.map_append, List.range'_append_1,
    show a + b + 1 = 1 + (b + a) by omega, ← List.map_append, List.range'_append_1,
    show c + (b + a) = a + b + c by omega]

/-- Within one snapshot the issued refs are exactly e1 .. eN in issuance order. -/
theorem snapshot_refs (st : BrowserState) (page : PageModel) (h : st.page_started = true) :
    (snapshot st page).2.element_refs.map Prod.fst
      = (List.range' 1 (snapshot st page).2.ref_counter).map eRef := by
  have hcond : (!st.page_started) = false := by rw [h]; rfl
  simp only [snapshot, hcond, Bool.false_eq_true, if_false]
  exact snap_chain page.links page.buttons page.textboxes _ _ rfl rfl

theorem execute_step_snd (net : String → HttpOutcome) (t1 t2 : String) (s : TaskStep) :
    (execute_step net t1 t2 s).2
      = jeqStr (execute_step net t1 t2 s).1.status "completed" := rfl

theorem execute_step_status (net : String → HttpOutcome) (t1 t2 : String) (s : TaskStep) :
    (execute_step net t1 t2 s).1.status
      = Json.str (if strContains (chat net (stepPrompt s) (some EXECUTOR_SYSTEM_PROMPT)) "SUCCESS"
          then "completed" else "failed") := rfl

/-- The step a run leaves behind is either completed or failed. -/
theorem execute_step_status_cases (net : String → HttpOutcome) (t1 t2 : String) (s : TaskStep) :
    (execute_step net t1 t2 s).1.status = Json.str "completed"
      ∨ (execute_step net t1 t2 s).1.status = Json.str "failed" := by
  rw [execute_step_status]
  by_cases h : strContains (chat net (stepPrompt s) (some EXECUTOR_SYSTEM_PROMPT)) "SUCCESS" = true
  · left; rw [if_pos h]
  · right; rw [if_neg h]

/-- The execution loop maps execute_step over the steps in list order, pairing step
j with clock readings 2j and 2j+1, and counts the completed results. -/
theorem execSteps_spec (net : String → HttpOutcome) (clock : Nat → String) :
    ∀ (steps : List TaskStep) (i : Nat),
      execSteps net clock i steps
        = (List.zipWith (fun j s => (execute_step net (clock (2 * j)) (clock (2 * j + 1)) s).1)
            (List.range' i steps.length) steps,
           List.countP (fun s => jeqStr s.status "completed")
             (List.zipWith (fun j s => (execute_step net (clock (2 * j)) (clock (2 * j + 1)) s).1)
               (List.range' i steps.length) steps)) := by
  intro steps
  induction steps with
  | nil => intro i; rfl
  | cons s rest ih =>
    intro i
    rw [execSteps, ih (i + 1)]
    simp only [List.length_cons, List.range'_succ, List.zipWith_cons_cons, List.countP_cons,
      execute_step_snd]
    refine congrArg (Prod.mk _) ?_
    exact Nat.add_comm _ _

theorem jeqStr_completed_iff (j : Json) :
    jeqStr j "completed" = true ↔ j = Json.str "completed" := by
  cases j <;> simp [jeqStr]

/-! Claim theorems. -/

/-- C1: execute_plan returns true exactly when every step it executed carries the
derived status completed; when some executed step carries status failed, the
reported success count is strictly below the step count and the result is false;
and the steps are processed strictly in list order without aborting, the j-th step
going through execute_step with the j-th pair of clock readings. -/
theorem C1_execute_plan (net : String → HttpOutcome) (clock : Nat → String) (plan : TaskPlan) :
    ((execute_plan net clock plan).2.2 = true ↔
      ∀ s ∈ (execute_plan net clock plan).1, s.status = Json.str "completed")
    ∧ ((∃ s ∈ (execute_plan net clock plan).1, s.status = Json.str "failed") →
        (execute_plan net clock plan).2.1 < plan.steps.length
          ∧ (execute_plan net clock plan).2.2 = false)
    ∧ (execute_plan net clock plan).1
        = List.zipWith (fun j s => (execute_step net (clock (2 * j)) (clock (2 * j + 1)) s).1)
            (List.range' 0 plan.steps.length) plan.steps := by
  have hspec := execSteps_spec net clock plan.steps 0
  set p : TaskStep → Bool := fun s => jeqStr s.status "completed" with hp
  set L := List.zipWith (fun j s => (execute_step net (clock (2 * j)) (clock (2 * j + 1)) s).1)
      (List.range' 0 plan.steps.length) plan.steps with hL
  have hE : execute_plan net clock plan
      = (L, L.countP p, decide (L.countP p = plan.steps.length)) := by
    show ((execSteps net clock 0 plan.steps).1, (execSteps net clock 0 plan.steps).2,
      decide ((execSteps net clock 0 plan.steps).2 = plan.steps.length)) = _
    rw [hspec]
  have hlen : L.length = plan.steps.length := by
    rw [hL, List.length_zipWith, List.length_range', Nat.min_self]
  rw [hE]
  simp only
  refine ⟨?_, ?_, trivial⟩
  · rw [decide_eq_true_eq]
    constructor
    · intro h s hs
      rw [← hlen] at h
      exact (jeqStr_completed_iff _).mp (List.countP_eq_length.mp h s hs)
    · intro h
      rw [← hlen]
      exact List.countP_eq_length.mpr (fun s hs => (jeqStr_completed_iff _).mpr (h s hs))
  · rintro ⟨s, hs, hfail⟩
    have hps : p s = false := by
      rw [hp]; simp only; rw [hfail]; decide
    have hne : L.countP p ≠ plan.steps.length := by
      intro hEq
      rw [← hlen] at hEq
      have := List.countP_eq_length.mp hEq s hs
      rw [hps] at this
      exact Bool.false_ne_true this
    have hle : L.countP p ≤ plan.steps.length := by
      rw [← hlen]; exact List.countP_le_length p
    exact ⟨Nat.lt_of_le_of_ne hle hne, decide_eq_false hne⟩

/-- A network oracle whose model response never reports SUCCESS. -/
def netNo : String → HttpOutcome := fun _ => HttpOutcome.resp 200 (some "nope")

/-- A network oracle whose model response reports SUCCESS. -/
def netYes : String → HttpOutcome := fun _ => HttpOutcome.resp 200 (some "Status: SUCCESS")

/-- A constant clock oracle. -/
def clockT : Nat → String := fun _ => "T"

theorem C1_witness :
    (execute_plan netNo clockT (fallback_plan "T0" "req")).2.1
        < (fallback_plan "T0" "req").steps.length
      ∧ (execute_plan netNo clockT (fallback_plan "T0" "req")).2.2 = false := by
  apply (C1_execute_plan netNo clockT (fallback_plan "T0" "req")).2.1
  refine ⟨?_, ?_, ?_⟩
  · exact ((execute_plan netNo clockT (fallback_plan "T0" "req")).1).headD
      { step_num := Json.null, tool := Json.null, params := Json.null,
        purpose := Json.null, estimated_seconds := Json.null }
  · exact List.mem_cons_self _ _
  · rfl

/-- A simple concrete step for witnesses. -/
def demoStep : TaskStep :=
  { step_num := Json.num "1", tool := Json.str "shell_command",
    params := Json.obj [("cmd", Json.str "echo hi")],
    purpose := Json.str "demo", estimated_seconds := Json.num "5" }

/-- C3: execute_step sets the status to completed exactly when the model response
contains the literal substring SUCCESS (and to failed exactly otherwise), stores
the response as the result, and returns true exactly when the status is completed. -/
theorem C3_execute_step (net : String → HttpOutcome) (t1 t2 : String) (step : TaskStep) :
    ((execute_step net t1 t2 step).1.status = Json.str "completed"
      ↔ strContains (chat net (stepPrompt step) (some EXECUTOR_SYSTEM_PROMPT)) "SUCCESS" = true)
    ∧ ((execute_step net t1 t2 step).1.status = Json.str "failed"
      ↔ strContains (chat net (stepPrompt step) (some EXECUTOR_SYSTEM_PROMPT)) "SUCCESS" = false)
    ∧ (execute_step net t1 t2 step).1.result
        = Json.str (chat net (stepPrompt step) (some EXECUTOR_SYSTEM_PROMPT))
    ∧ ((execute_step net t1 t2 step).2 = true
      ↔ (execute_step net t1 t2 step).1.status = Json.str "completed") := by
  refine ⟨?_, ?_, rfl, ?_⟩
  · rw [execute_step_status]
    by_cases h : strContains (chat net (stepPrompt step) (some EXECUTOR_SYSTEM_PROMPT)) "SUCCESS" = true
    · simp [h]
    · rw [Bool.not_eq_true] at h; simp [h]
  · rw [execute_step_status]
    by_cases h : strContains (chat net (stepPrompt step) (some EXECUTOR_SYSTEM_PROMPT)) "SUCCESS" = true
    · simp [h]
    · rw [Bool.not_eq_true] at h; simp [h]
  · rw [execute_step_snd]
    exact jeqStr_completed_iff _

theorem C3_witness :
    (execute_step netYes "T" "T" demoStep).1.status = Json.str "completed"
      ∧ (execute_step netNo "T" "T" demoStep).1.status = Json.str "failed" :=
  ⟨(C3_execute_step netYes "T" "T" demoStep).1.mpr rfl,
   (C3_execute_step netNo "T" "T" demoStep).2.1.mpr rfl⟩

/-- C4: both detect_hardware variants are pure functions of the RAM value against
the fixed thresholds: at 16 GB or more they pick the largest model qwen3:8b with
the largest context 32768; below their smallest threshold they pick their smallest
configured model; and equal RAM values always give equal results. -/
theorem C4_detect_hardware (ram : ℚ) :
    (16 ≤ ram →
      (detect_hardware ram).model = "qwen3:8b" ∧ (detect_hardware ram).context_size = 32768
      ∧ (detect_hardware_main ram).model = "qwen3:8b"
      ∧ (detect_hardware_main ram).context_size = 32768)
    ∧ (ram < 4 →
      (detect_hardware ram).model = "qwen3:0.6b" ∧ (detect_hardware ram).context_size = 4096)
    ∧ (ram < 8 →
      (detect_hardware_main ram).model = "qwen3:1.7b"
      ∧ (detect_hardware_main ram).context_size = 8192)
    ∧ (∀ ram2 : ℚ, ram = ram2 →
      detect_hardware ram = detect_hardware ram2
      ∧ detect_hardware_main ram = detect_hardware_main ram2) := by
  refine ⟨?_, ?_, ?_, fun ram2 h => by rw [h]; exact ⟨rfl, rfl⟩⟩
  · intro h
    rw [detect_hardware, detect_hardware_main, if_pos h, if_pos h]
    exact ⟨rfl, rfl, rfl, rfl⟩
  · intro h
    rw [detect_hardware, if_neg (not_le.mpr (by linarith)), if_neg (not_le.mpr (by linarith)),
      if_neg (not_le.mpr h)]
    exact ⟨rfl, rfl⟩
  · intro h
    rw [detect_hardware_main, if_neg (not_le.mpr (by linarith)), if_neg (not_le.mpr h)]
    exact ⟨rfl, rfl⟩

theorem C4_witness :
    (detect_hardware 20).model = "qwen3:8b"
    ∧ (detect_hardware_main 20).context_size = 32768
    ∧ (detect_hardware 1).model = "qwen3:0.6b"
    ∧ (detect_hardware_main 1).model = "qwen3:1.7b" :=
  ⟨((C4_detect_hardware 20).1 (by norm_num)).1,
   ((C4_detect_hardware 20).1 (by norm_num)).2.2.2,
   ((C4_detect_hardware 1).2.1 (by norm_num)).1,
   ((C4_detect_hardware 1).2.2.1 (by norm_num)).1⟩

/-- C6: with the browser started, navigate dispatches exactly the normalized url to
the page load: a url carrying neither the http nor the https scheme is prefixed
with https://, and a url already carrying one of those schemes is dispatched
unchanged. -/
theorem C6_navigate (st : BrowserState) (goto : String → String → GotoOutcome)
    (url wait_for : String) (h : st.page_started = true) :
    (navigate st goto url wait_for).dispatched = some (normalize_url url)
    ∧ (strStarts url "http://" = false → strStarts url "https://" = false →
        normalize_url url = "https://" ++ url)
    ∧ (strStarts url "http://" = true ∨ strStarts url "https://" = true →
        normalize_url url = url) := by
  have hcond : (!st.page_started) = false := by rw [h]; rfl
  refine ⟨?_, ?_, ?_⟩
  · simp only [navigate, hcond, Bool.false_eq_true, if_false]
    cases hg : goto (normalize_url url) wait_for with
    | thrown e => rfl
    | loaded r resp =>
      match resp with
      | none => rfl
      | some (true, stc) => rfl
      | some (false, stc) => rfl
  · intro h1 h2
    rw [normalize_url, if_neg]
    rw [h1, h2]
    simp
  · intro hor
    rcases hor with h1 | h1
    · rw [normalize_url, if_pos]
      rw [h1]
      simp
    · rw [normalize_url, if_pos]
      rw [h1]
      simp

/-- A started browser state with an empty ref table. -/
def startedSt : BrowserState := { page_started := true }

/-- A goto oracle that always loads with HTTP 200. -/
def gotoOk : String → String → GotoOutcome := fun u _ => GotoOutcome.loaded u (some (true, 200))

theorem C6_witness :
    (navigate startedSt gotoOk "example.com" "domcontentloaded").dispatched
        = some (normalize_url "example.com")
    ∧ normalize_url "example.com" = "https://" ++ "example.com"
    ∧ normalize_url "https://x.org" = "https://x.org" :=
  ⟨(C6_navigate startedSt gotoOk "example.com" "domcontentloaded" rfl).1,
   (C6_navigate startedSt gotoOk "example.com" "domcontentloaded" rfl).2.1 rfl rfl,
   (C6_navigate startedSt gotoOk "https://x.org" "domcontentloaded" rfl).2.2 (Or.inr rfl)⟩

/-- C7: a loaded page whose text contains the phrase sign in and which has a
password-type input makes the login-detection check report the distinguished
LOGIN_REQUIRED outcome, not the generic success outcome. -/
theorem C7_check_login (pageText : String)
    (h1 : strContains pageText "sign in" = true) :
    check_login pageText true = "LOGIN_REQUIRED" ∧ check_login pageText true ≠ "OK" := by
  have hc : check_login pageText true = "LOGIN_REQUIRED" := by
    rw [check_login, if_pos]
    simp [h1]
  exact ⟨hc, by rw [hc]; decide⟩

theorem C7_witness :
    check_login "please sign in to continue" true = "LOGIN_REQUIRED"
      ∧ check_login "please sign in to continue" true ≠ "OK" :=
  C7_check_login "please sign in to continue" rfl

/-- C8: chat dispatches the system preamble, a blank line, then the prompt; on HTTP
200 it returns the response text field, otherwise an Error string embedding the
HTTP status, and on an exception an Error string embedding the message; every
outcome yields either the text field or an Error-prefixed string, so chat never
raises. -/
theorem C8_chat (net : String → HttpOutcome) (prompt : String) (system : Option String) :
    (chat net prompt system = chatHandle (net (fullPrompt system prompt)))
    ∧ (∀ s, fullPrompt (some s) prompt = s ++ "\n\n" ++ prompt)
    ∧ (∀ t, net (fullPrompt system prompt) = HttpOutcome.resp 200 (some t) →
        chat net prompt system = t)
    ∧ (∀ status f, net (fullPrompt system prompt) = HttpOutcome.resp status f → status ≠ 200 →
        chat net prompt system = "Error: HTTP " ++ natDec status)
    ∧ (∀ m, net (fullPrompt system prompt) = HttpOutcome.exn m →
        chat net prompt system = "Error: " ++ m)
    ∧ ((∃ f, net (fullPrompt system prompt) = HttpOutcome.resp 200 f
          ∧ chat net prompt system = f.getD "")
        ∨ strStarts (chat net prompt system) "Error:" = true) := by
  refine ⟨rfl, fun s => rfl, ?_, ?_, ?_, ?_⟩
  · intro t h
    rw [chat, h]
    rfl
  · intro status f h hne
    rw [chat, h, chatHandle, if_neg hne]
  · intro m h
    rw [chat, h]
    rfl
  · cases hg : net (fullPrompt system prompt) with
    | exn m =>
      right
      rw [chat, hg]
      exact strStarts_of_append "Error: " m "Error:" rfl
    | resp status f =>
      by_cases h200 : status = 200
      · subst h200
        exact Or.inl ⟨f, rfl, by rw [chat, hg]; rfl⟩
      · right
        rw [chat, hg, chatHandle, if_neg h200]
        exact strStarts_of_append "Error: HTTP " (natDec status) "Error:" rfl

/-- A network oracle that always answers HTTP 500 with no decoded text field. -/
def netErr : String → HttpOutcome := fun _ => HttpOutcome.resp 500 none

theorem C8_witness :
    chat netErr "p" none = "Error: HTTP " ++ natDec 500
    ∧ fullPrompt (some "sys") "p" = "sys" ++ "\n\n" ++ "p" :=
  ⟨(C8_chat netErr "p" none).2.2.2.1 500 none rfl (by decide),
   (C8_chat netErr "p" (some "sys")).2.1 "sys"⟩

/-- C2 (amended): whenever the parse-and-build path of create_plan fails — in
particular on an empty model response, or on any response whose extracted and
stripped text is not valid JSON — create_plan returns the hard-coded fallback
plan: exactly one step, invoking the shell_command tool with an echo of the
request, so the result then has at least one step. -/
theorem C2_create_plan (now user_request response : String)
    (h : planParse response = none) :
    create_plan_of_response now user_request response = fallback_plan now user_request
    ∧ (fallback_plan now user_request).steps.length = 1
    ∧ (∀ s ∈ (fallback_plan now user_request).steps,
        s.tool = Json.str "shell_command"
        ∧ s.params = Json.obj [("cmd",
            Json.str ("echo " ++ apos ++ "Processing: " ++ user_request ++ apos))])
    ∧ planParse "" = none
    ∧ 1 ≤ (create_plan_of_response now user_request response).steps.length := by
  have hmain : create_plan_of_response now user_request response
      = fallback_plan now user_request := by
    rw [create_plan_of_response, h]
  refine ⟨hmain, rfl, ?_, rfl, ?_⟩
  · intro s hs
    rcases List.mem_singleton.mp hs with rfl
    exact ⟨rfl, rfl⟩
  · rw [hmain]
    exact Nat.le_refl 1

/-- C2 counterexample: a model response that is a valid JSON object with an empty
steps list yields a plan with zero steps, refuting the unconditional claim that
create_plan always returns a plan with at least one step. -/
theorem C2_counterexample :
    (create_plan_of_response "T0" "req" "\x7b\"steps\": []\x7d").steps.length = 0 := rfl

/-- C10: a model response that decodes to a JSON object whose steps field is absent
or is the empty list makes create_plan return a plan with zero steps without
taking the fallback path, and execute_plan on that zero-step plan returns true
with a reported success count of 0 out of 0 steps. -/
theorem C10_empty_steps (now user_request response : String) (kvs : List (String × Json))
    (net : String → HttpOutcome) (clock : Nat → String)
    (hobj : jsonParse (pyStrip (extractJson response)) = some (Json.obj kvs))
    (hsteps : jlookup kvs "steps" = none ∨ jlookup kvs "steps" = some (Json.arr [])) :
    (create_plan_of_response now user_request response).steps = []
    ∧ create_plan_of_response now user_request response ≠ fallback_plan now user_request
    ∧ execute_plan net clock (create_plan_of_response now user_request response)
        = ([], 0, true) := by
  have hfull : create_plan_of_response now user_request response
      = { task_summary := (jlookup kvs "task_summary").getD (Json.str "Unknown task"),
          estimated_time := (jlookup kvs "estimated_time").getD (Json.str "Unknown"),
          steps := [],
          fallback_plan := (jlookup kvs "fallback_plan").getD (Json.str "Ask user for help"),
          created_at := now } := by
    have hplan : planParse response
        = some ((jlookup kvs "task_summary").getD (Json.str "Unknown task"),
                (jlookup kvs "estimated_time").getD (Json.str "Unknown"),
                [],
                (jlookup kvs "fallback_plan").getD (Json.str "Ask user for help")) := by
      simp only [planParse, hobj]
      rcases hsteps with h | h <;> rw [h] <;> rfl
    rw [create_plan_of_response, hplan]
  have hsteps0 : (create_plan_of_response now user_request response).steps = [] := by
    rw [hfull]
  refine ⟨hsteps0, ?_, ?_⟩
  · intro hEq
    rw [hEq] at hsteps0
    simp [fallback_plan] at hsteps0
  · rw [hfull]
    rfl

theorem C10_witness :
    (create_plan_of_response "T0" "req" "\x7b\"steps\": []\x7d").steps = []
    ∧ create_plan_of_response "T0" "req" "\x7b\"steps\": []\x7d" ≠ fallback_plan "T0" "req"
    ∧ execute_plan netNo clockT (create_plan_of_response "T0" "req" "\x7b\"steps\": []\x7d")
        = ([], 0, true) :=
  C10_empty_steps "T0" "req" "\x7b\"steps\": []\x7d" [("steps", Json.arr [])] netNo clockT
    rfl (Or.inr rfl)

/-- C9 (amended): with the browser started, a ref-shaped argument that is a known
ref makes click and type_text use that ref's recorded selector; a ref-shaped
argument that is not a known ref makes both operations fail outright, with no
selector attempted (they do not fall back to treating it as a literal selector);
an argument that is not ref-shaped is attempted as a literal CSS selector; in
every case the operations report a boolean outcome rather than raising. -/
theorem C9_click_type (st : BrowserState) (doClick : String → Bool)
    (doFill : String → String → Bool) (arg text : String) (h : st.page_started = true) :
    (∀ info, isRefShaped arg = true → lookupRef st.element_refs arg = some info →
      click st doClick arg = (doClick info.selector, some info.selector)
      ∧ type_text st doFill arg text = (doFill info.selector text, some info.selector))
    ∧ (isRefShaped arg = true → lookupRef st.element_refs arg = none →
      click st doClick arg = (false, none) ∧ type_text st doFill arg text = (false, none))
    ∧ (isRefShaped arg = false →
      click st doClick arg = (doClick arg, some arg)
      ∧ type_text st doFill arg text = (doFill arg text, some arg)) := by
  have hcond : (!st.page_started) = false := by rw [h]; rfl
  refine ⟨?_, ?_, ?_⟩
  · intro info h1 h2
    constructor <;> simp [click, type_text, hcond, h1, h2]
  · intro h1 h2
    constructor <;> simp [click, type_text, hcond, h1, h2]
  · intro h1
    constructor <;> simp [click, type_text, hcond, h1]

/-- C9 counterexample: with the browser started and an empty ref table, the
ref-shaped argument e99 is not a known ref, yet click does not treat it as a
literal selector: it returns False having attempted nothing, even under an oracle
for which clicking any selector would succeed. -/
theorem C9_counterexample :
    click startedSt (fun _ => true) "e99" = (false, none)
    ∧ (click startedSt (fun _ => true) "e99").2 ≠ some "e99" :=
  ⟨by decide, by decide⟩

/-- A started browser state holding one recorded ref. -/
def refSt : BrowserState :=
  { element_refs := [("e1", { ref := "e1", role := "link", name := "x", selector := ".lnk" })],
    ref_counter := 1, page_started := true }

theorem C9_witness :
    click refSt (fun s => s = ".lnk") "e1" = (true, some ".lnk")
    ∧ type_text refSt (fun s _ => s = ".lnk") "e1" "hi" = (true, some ".lnk")
    ∧ click refSt (fun _ => true) ".btn" = (true, some ".btn") := by
  have h1 := (C9_click_type refSt (fun s => s = ".lnk") (fun s _ => s = ".lnk") "e1" "hi" rfl).1
    { ref := "e1", role := "link", name := "x", selector := ".lnk" } rfl rfl
  have h2 := (C9_click_type refSt (fun _ => true) (fun _ _ => true) ".btn" "hi" rfl).2.2 rfl
  exact ⟨by rw [h1.1]; rfl, by rw [h1.2]; rfl, by rw [h2.1]⟩

/-- C5: from any prior browser state with the page started, the element references
issued by one snapshot are exactly e1 .. eN in issuance order (the ref table and
counter having been reset at the start), so each one is the letter e followed by a
positive integer, the numbers strictly increase from 1 in issuance order, and the
references are pairwise distinct. -/
theorem C5_snapshot_refs (st : BrowserState) (page : PageModel) (h : st.page_started = true) :
    ((snapshot st page).2.element_refs.map Prod.fst
        = (List.range' 1 (snapshot st page).2.ref_counter).map eRef)
    ∧ (∀ r ∈ (snapshot st page).2.element_refs.map Prod.fst,
        ∃ k, 1 ≤ k ∧ r = "e" ++ natDec k)
    ∧ ((snapshot st page).2.element_refs.map Prod.fst).Nodup := by
  have hmain := snapshot_refs st page h
  refine ⟨hmain, ?_, ?_⟩
  · intro r hr
    rw [hmain] at hr
    rcases List.mem_map.mp hr with ⟨k, hk, rfl⟩
    rcases List.mem_range'.mp hk with ⟨i, hi, rfl⟩
    exact ⟨1 + 1 * i, by omega, rfl⟩
  · rw [hmain]
    apply List.Nodup.map_on
    · intro x hx y hy hxy
      have hx1 : 1 ≤ x := by rcases List.mem_range'.mp hx with ⟨i, hi, rfl⟩; omega
      have hy1 : 1 ≤ y := by rcases List.mem_range'.mp hy with ⟨i, hi, rfl⟩; omega
      exact eRef_inj x y hx1 hy1 hxy
    · exact List.nodup_range' 1 _

/-- A small concrete page for the snapshot witness. -/
def demoPage : PageModel :=
  { headings := [some "H"], links := [some "a"], buttons := [some "b"], textboxes := [none] }

theorem C5_witness :
    ((snapshot startedSt demoPage).2.element_refs.map Prod.fst
        = (List.range' 1 (snapshot startedSt demoPage).2.ref_counter).map eRef)
    ∧ ((snapshot startedSt demoPage).2.element_refs.map Prod.fst).Nodup :=
  ⟨(C5_snapshot_refs startedSt demoPage rfl).1,
   (C5_snapshot_refs startedSt demoPage rfl).2.2⟩

theorem C2_witness :
    create_plan_of_response "T0" "req" "not json" = fallback_plan "T0" "req"
    ∧ 1 ≤ (create_plan_of_response "T0" "req" "not json").steps.length :=
  ⟨(C2_create_plan "T0" "req" "not json" rfl).1,
   (C2_create_plan "T0" "req" "not json" rfl).2.2.2.2⟩
